import Mathlib

/-!
Verification of the enarx-keepldr memory-layout algebra, syscall dispatcher,
SGX exception handler, host thread entry loops and netlink subnet helper,
via a shallow embedding of the Rust sources.

Machine integers (`usize`, `u32`, `u128`, ...) are modelled as `Nat` with an
explicit modulus where the Rust code can wrap; release-profile semantics are
used (wrapping add/mul, masked shifts), matching the shipped binaries.
-/

set_option maxRecDepth 4096

namespace Enarx

/-- The modulus of `usize` on x86-64. -/
def USIZE : Nat := 2 ^ 64

/-- libc errno EINVAL. -/
def EINVAL : Int := 22

/-- libc errno ENOSYS. -/
def ENOSYS : Int := 38

namespace Hostlib

/-- `lset::Line<usize>`: a half-open interval given by its two endpoints.
The Rust field named like the interval's upper endpoint is a Lean keyword,
so it is called `stop` here. -/
structure Line where
  start : Nat
  stop : Nat
deriving Repr, DecidableEq

/-- `lset::Span<usize>`: an interval given by start and length. -/
structure Span where
  start : Nat
  count : Nat
deriving Repr, DecidableEq

/-- The `From<Span<usize>> for Line<usize>` conversion: the upper endpoint is
`start + count` with wrapping `usize` addition (release profile). -/
def lineOfSpan (s : Span) : Line :=
  { start := s.start, stop := (s.start + s.count) % USIZE }

/-- `hostlib.rs` `lower`: `value / boundary * boundary`. -/
def lower (value boundary : Nat) : Nat :=
  value / boundary * boundary

/-- `hostlib.rs` `raise`: `value.checked_add(boundary)` (fails exactly when
`value + boundary` does not fit in `usize`), then `wrapping_sub(1)`, then
`lower`.  Every call site passes a nonzero `boundary`, so the
`wrapping_sub(1)` never wraps and is modelled as plain subtraction. -/
def raise (value boundary : Nat) : Option Nat :=
  if value + boundary < USIZE then some (lower (value + boundary - 1) boundary)
  else none

/-- `hostlib.rs` `above`: the next span starting at `raise(rel.end, align)`
of length `size`. -/
def above (rel : Line) (size align : Nat) : Option Span :=
  (raise rel.stop align).map fun val => { start := val, count := size }

/-- `MAX_SETUP_SIZE`: the first 2 MiB are unencrypted shared memory. -/
def MAX_SETUP_SIZE : Nat := 2 ^ 21

/-- `primordial::Page::size()` on x86-64. -/
def PAGE_SIZE : Nat := 4096

/-- `hostlib.rs` `BootInfo` (the `SYSCALL_PHYS_ADDR` bookkeeping fields that
`calculate` sets to defaults are kept). -/
structure BootInfo where
  setup : Line
  shim : Line
  code : Line
  mem_size : Nat
  nr_syscall_blocks : Nat
deriving Repr, DecidableEq

/-- `BootInfo::calculate`.  `Err(NoMemory)` is modelled as `none`; the Rust
`ok_or(NoMemory(()))?` steps become the monadic binds.  The `debug_assert!`
on the setup line is compiled out of release builds and has no effect on the
returned value, so it does not appear here. -/
def BootInfo.calculate (setup : Line) (shim : Span) (code : Span) : Option BootInfo := do
  let shimLine := lineOfSpan (← above setup shim.count MAX_SETUP_SIZE)
  let codeLine := lineOfSpan (← above shimLine code.count PAGE_SIZE)
  let memSize ← raise codeLine.stop PAGE_SIZE
  some { setup := setup, shim := shimLine, code := codeLine,
         mem_size := memSize, nr_syscall_blocks := 0 }

/-- The shim line that `calculate` builds once the first `raise` succeeded,
written as a total function (used to state when the later steps overflow). -/
def shimLineR (setup : Line) (shimCount : Nat) : Line :=
  lineOfSpan { start := lower (setup.stop + MAX_SETUP_SIZE - 1) MAX_SETUP_SIZE,
               count := shimCount }

/-- The code line that `calculate` builds once the first two `raise`s
succeeded, written as a total function. -/
def codeLineR (setup : Line) (shimCount codeCount : Nat) : Line :=
  lineOfSpan { start := lower ((shimLineR setup shimCount).stop + PAGE_SIZE - 1) PAGE_SIZE,
               count := codeCount }

lemma raise_eq_some {v b r : Nat} :
    raise v b = some r ↔ v + b < USIZE ∧ r = lower (v + b - 1) b := by
  unfold raise
  split <;> simp_all [eq_comm]

lemma le_of_raise {v b r : Nat} (hb : 0 < b) (h : raise v b = some r) : v ≤ r := by
  obtain ⟨-, hr⟩ := raise_eq_some.mp h
  subst hr
  unfold lower
  have h1 := Nat.div_add_mod (v + b - 1) b
  have h2 := Nat.mod_lt (v + b - 1) hb
  rw [Nat.mul_comm]
  omega

lemma dvd_of_raise {v b r : Nat} (h : raise v b = some r) : b ∣ r := by
  obtain ⟨-, hr⟩ := raise_eq_some.mp h
  subst hr
  unfold lower
  exact dvd_mul_left b _

lemma raise_min {v b r m : Nat} (hb : 0 < b) (h : raise v b = some r)
    (hdvd : b ∣ m) (hvm : v ≤ m) : r ≤ m := by
  obtain ⟨-, hr⟩ := raise_eq_some.mp h
  obtain ⟨k, hk⟩ := hdvd
  subst hr hk
  unfold lower
  have hle : v + b - 1 ≤ b * k + (b - 1) := by omega
  have hdiv : (b * k + (b - 1)) / b = k := by
    simp [Nat.mul_add_div hb, Nat.div_eq_of_lt (show b - 1 < b by omega)]
  calc (v + b - 1) / b * b ≤ (b * k + (b - 1)) / b * b :=
        Nat.mul_le_mul_right _ (Nat.div_le_div_right hle)
    _ = k * b := by rw [hdiv]
    _ = b * k := Nat.mul_comm _ _

/-- The successful results of `calculate`, step by step: shim span raised off
the setup line at 2 MiB, code span raised off the shim line at page size,
memory size raised off the code line at page size. -/
lemma calculate_eq_some {setup : Line} {shim code : Span} {bi : BootInfo}
    (h : BootInfo.calculate setup shim code = some bi) :
    raise setup.stop MAX_SETUP_SIZE = some bi.shim.start ∧
    bi.shim.stop = (bi.shim.start + shim.count) % USIZE ∧
    raise bi.shim.stop PAGE_SIZE = some bi.code.start ∧
    bi.code.stop = (bi.code.start + code.count) % USIZE ∧
    raise bi.code.stop PAGE_SIZE = some bi.mem_size ∧
    bi.setup = setup := by
  simp only [BootInfo.calculate, above, Option.bind_eq_bind, Option.bind_eq_some,
    Option.map_eq_some'] at h
  obtain ⟨x1, ⟨r1, hr1, hx1⟩, x2, ⟨r2, hr2, hx2⟩, x3, hr3, hbi⟩ := h
  subst hx1 hx2
  cases hbi
  simp only [lineOfSpan]
  exact ⟨hr1, trivial, hr2, trivial, hr3, trivial⟩

end Hostlib

end Enarx

namespace Enarx

namespace Hostlib

/-- C2: `BootInfo::calculate` places the shim span at
`raise(setup.end, 2 MiB)` with the given shim size, the code span at
`raise(shim.end, page_size)` with the given code size, and `mem_size` at
`raise(code.end, page_size)`, where `raise(v, a)` (when it does not overflow)
is the smallest multiple of `a` that is at least `v`; in particular, for
`setup = {0..0x1000}`, shim size `0x10_0000` and code size `0x10`, it returns
`shim.start == 0x20_0000`, `code.start == 0x30_0000`, `code.end == 0x30_0010`
and `mem_size == 0x30_1000`. -/
theorem c2_calculate_layout :
    (∀ (setup : Line) (shim code : Span) (bi : BootInfo),
      BootInfo.calculate setup shim code = some bi →
        raise setup.stop MAX_SETUP_SIZE = some bi.shim.start ∧
        bi.shim.stop = (bi.shim.start + shim.count) % USIZE ∧
        raise bi.shim.stop PAGE_SIZE = some bi.code.start ∧
        bi.code.stop = (bi.code.start + code.count) % USIZE ∧
        raise bi.code.stop PAGE_SIZE = some bi.mem_size) ∧
    (∀ v a r : Nat, 0 < a → raise v a = some r →
      a ∣ r ∧ v ≤ r ∧ ∀ m : Nat, a ∣ m → v ≤ m → r ≤ m) ∧
    BootInfo.calculate { start := 0, stop := 0x1000 }
        { start := 0, count := 0x100000 } { start := 0, count := 0x10 } =
      some { setup := { start := 0, stop := 0x1000 },
             shim := { start := 0x200000, stop := 0x300000 },
             code := { start := 0x300000, stop := 0x300010 },
             mem_size := 0x301000, nr_syscall_blocks := 0 } := by
  refine ⟨?_, ?_, by decide⟩
  · intro setup shim code bi h
    have h2 := calculate_eq_some h
    exact ⟨h2.1, h2.2.1, h2.2.2.1, h2.2.2.2.1, h2.2.2.2.2.1⟩
  · intro v a r ha h
    exact ⟨dvd_of_raise h, le_of_raise ha h,
      fun m hdvd hvm => raise_min ha h hdvd hvm⟩

/-- Witness for C2: the theorem applied at the S4 inputs and at a small
concrete `raise` instance. -/
theorem c2_calculate_layout_witness :
    raise 0x1000 MAX_SETUP_SIZE = some 0x200000 ∧
    raise 0x300010 PAGE_SIZE = some 0x301000 ∧
    (4096 : Nat) ∣ 0x301000 ∧ 0x300010 ≤ 0x301000 := by
  have h1 := c2_calculate_layout.1
      { start := 0, stop := 0x1000 } { start := 0, count := 0x100000 }
      { start := 0, count := 0x10 }
      { setup := { start := 0, stop := 0x1000 },
        shim := { start := 0x200000, stop := 0x300000 },
        code := { start := 0x300000, stop := 0x300010 },
        mem_size := 0x301000, nr_syscall_blocks := 0 } (by decide)
  have h2 := c2_calculate_layout.2.1 0x300010 4096 0x301000 (by decide) (by decide)
  exact ⟨h1.1, h1.2.2.2.2, h2.1, h2.2.1⟩

/-- Counterexample for C3: a shim size large enough to wrap the `usize`
addition in the `Span` to `Line` conversion gives a successful `calculate`
whose shim line has `start > stop`: the layout is not monotone. -/
theorem c3_counterexample :
    BootInfo.calculate { start := 0, stop := 0x1000 }
        { start := 0, count := USIZE - 0x200000 + 1 } { start := 0, count := 0 } =
      some { setup := { start := 0, stop := 0x1000 },
             shim := { start := 0x200000, stop := 1 },
             code := { start := 0x1000, stop := 0x1000 },
             mem_size := 0x1000, nr_syscall_blocks := 0 } ∧
    ¬ (0x200000 : Nat) ≤ 1 := by
  constructor
  · decide
  · decide

/-- C3 (amended): when the shim and code line ends do not wrap around
`usize` (`shim.start + shim.count < 2^64` and
`code.start + code.count < 2^64`), every successful `BootInfo::calculate`
yields a monotone, aligned layout:
`setup.end ≤ shim.start ≤ shim.end ≤ code.start ≤ code.end ≤ mem_size`,
with `shim.start` a multiple of 2 MiB and `code.start` and `mem_size`
multiples of the page size.  (As stated, without the no-wrap condition, the
claim fails: see the counterexample.) -/
theorem c3_calculate_monotone_aligned :
    ∀ (setup : Line) (shim code : Span) (bi : BootInfo),
      BootInfo.calculate setup shim code = some bi →
      bi.shim.start + shim.count < USIZE →
      bi.code.start + code.count < USIZE →
      (setup.stop ≤ bi.shim.start ∧ bi.shim.start ≤ bi.shim.stop ∧
       bi.shim.stop ≤ bi.code.start ∧ bi.code.start ≤ bi.code.stop ∧
       bi.code.stop ≤ bi.mem_size) ∧
      (MAX_SETUP_SIZE ∣ bi.shim.start ∧ PAGE_SIZE ∣ bi.code.start ∧
       PAGE_SIZE ∣ bi.mem_size) := by
  intro setup shim code bi h hshim hcode
  obtain ⟨h1, h2, h3, h4, h5, -⟩ := calculate_eq_some h
  have hs : bi.shim.stop = bi.shim.start + shim.count := by
    rw [h2, Nat.mod_eq_of_lt hshim]
  have hc : bi.code.stop = bi.code.start + code.count := by
    rw [h4, Nat.mod_eq_of_lt hcode]
  refine ⟨⟨le_of_raise (by decide) h1, by omega,
          le_of_raise (by decide) h3, by omega,
          le_of_raise (by decide) h5⟩,
         dvd_of_raise h1, dvd_of_raise h3, dvd_of_raise h5⟩

/-- Witness for C3 (amended): the theorem applied at the S4 inputs. -/
theorem c3_calculate_monotone_aligned_witness :
    ((0x1000 : Nat) ≤ 0x200000 ∧ (0x200000 : Nat) ≤ 0x300000 ∧
     (0x300000 : Nat) ≤ 0x300000 ∧ (0x300000 : Nat) ≤ 0x300010 ∧
     (0x300010 : Nat) ≤ 0x301000) ∧
    (MAX_SETUP_SIZE ∣ 0x200000 ∧ PAGE_SIZE ∣ 0x300000 ∧ PAGE_SIZE ∣ 0x301000) :=
  c3_calculate_monotone_aligned
    { start := 0, stop := 0x1000 } { start := 0, count := 0x100000 }
    { start := 0, count := 0x10 }
    { setup := { start := 0, stop := 0x1000 },
      shim := { start := 0x200000, stop := 0x300000 },
      code := { start := 0x300000, stop := 0x300010 },
      mem_size := 0x301000, nr_syscall_blocks := 0 }
    (by decide) (by decide) (by decide)

/-- C9: `BootInfo::calculate` fails with `NoMemory` exactly when one of its
three checked `raise` steps overflows `usize` (raising the setup line end to
2 MiB, the shim line end to page size, or the code line end to page size);
the `setup.end < 2 MiB` precondition is only debug-asserted, so in release
builds `calculate` still succeeds for a setup line ending at 2 MiB. -/
theorem c9_calculate_nomemory_iff :
    (∀ (setup : Line) (shim code : Span),
      BootInfo.calculate setup shim code = none ↔
        (raise setup.stop MAX_SETUP_SIZE = none ∨
         raise (shimLineR setup shim.count).stop PAGE_SIZE = none ∨
         raise (codeLineR setup shim.count code.count).stop PAGE_SIZE = none)) ∧
    (BootInfo.calculate { start := 0, stop := 0x200000 }
        { start := 0, count := 0x1000 } { start := 0, count := 0x10 }).isSome := by
  refine ⟨?_, by decide⟩
  intro setup shim code
  cases h1 : raise setup.stop MAX_SETUP_SIZE with
  | none => simp [BootInfo.calculate, above, h1]
  | some s1 =>
    have hs1 : shimLineR setup shim.count = lineOfSpan { start := s1, count := shim.count } := by
      rw [shimLineR, (raise_eq_some.mp h1).2]
    cases h2 : raise (lineOfSpan { start := s1, count := shim.count }).stop PAGE_SIZE with
    | none => simp [BootInfo.calculate, above, h1, h2, hs1]
    | some s2 =>
      have hs2 : codeLineR setup shim.count code.count =
          lineOfSpan { start := s2, count := code.count } := by
        rw [codeLineR, hs1, (raise_eq_some.mp h2).2]
      cases h3 : raise (lineOfSpan { start := s2, count := code.count }).stop PAGE_SIZE with
      | none => simp [BootInfo.calculate, above, h1, h2, h3, hs1, hs2]
      | some s3 => simp [BootInfo.calculate, above, h1, h2, h3, hs1, hs2]

end Hostlib

namespace Netlink

/-- `std::net::IpAddr`: a v4 address is a `u32`, a v6 address a `u128`
(network byte order round-trips through `to_be_bytes` are the identity on
the numeric value, so the value itself is kept). -/
inductive IpAddr where
  | v4 (a : Nat)
  | v6 (a : Nat)
deriving Repr, DecidableEq

/-- The bit width of the integer form of an address. -/
def IpAddr.width : IpAddr → Nat
  | .v4 _ => 32
  | .v6 _ => 128

/-- `subnet.rs` `Subnet`.  `prefix` is a Lean keyword, hence `pfx`. -/
structure Subnet where
  address : IpAddr
  pfx : Nat
deriving Repr, DecidableEq

/-- `Subnet::mask`.  The shift amount `32 - prefix` (resp. `128 - prefix`)
is computed in `u8` arithmetic; a `prefix` above the width wraps the
subtraction, and `!0 >> shift << shift` is only defined for a shift amount
strictly below the bit width.  Both failure modes (overflow panic in a debug
build, no meaningful value in release) are modelled as `none`. -/
def Subnet.mask (addr : IpAddr) (p : Nat) : Option IpAddr :=
  match addr with
  | .v4 a =>
    let shift := (32 + 256 - p) % 256
    if shift < 32 then
      some (.v4 (Nat.land a (((2 ^ 32 - 1) >>> shift) <<< shift)))
    else none
  | .v6 a =>
    let shift := (128 + 256 - p) % 256
    if shift < 128 then
      some (.v6 (Nat.land a (((2 ^ 128 - 1) >>> shift) <<< shift)))
    else none

/-- `Subnet::new`: stores the masked address together with the prefix. -/
def Subnet.new (address : IpAddr) (p : Nat) : Option Subnet :=
  (Subnet.mask address p).map fun masked => { address := masked, pfx := p }

/-- `Subnet::contains`: re-masks the query address with the stored prefix
and compares with the stored network address. -/
def Subnet.contains (s : Subnet) (addr : IpAddr) : Option Bool :=
  (Subnet.mask addr s.pfx).map fun masked => decide (masked = s.address)

/-- C8: for every valid pair of address and prefix length (a prefix between
1 and the address width, so that the mask shift is defined),
`Subnet::new(addr, p).contains(addr)` returns `true`. -/
theorem c8_subnet_contains_self :
    ∀ (addr : IpAddr) (p : Nat), 1 ≤ p → p ≤ addr.width →
      (Subnet.new addr p).bind (fun s => s.contains addr) = some true := by
  intro addr p h1 h2
  cases addr with
  | v4 a =>
    simp only [IpAddr.width] at h2
    simp [Subnet.new, Subnet.contains, Subnet.mask, show (32 + 256 - p) % 256 < 32 by omega]
  | v6 a =>
    simp only [IpAddr.width] at h2
    simp [Subnet.new, Subnet.contains, Subnet.mask, show (128 + 256 - p) % 256 < 128 by omega]

/-- Witness for C8: a /24 IPv4 subnet contains its own base address. -/
theorem c8_subnet_contains_self_witness :
    (Subnet.new (.v4 0xC0A80101) 24).bind (fun s => s.contains (.v4 0xC0A80101)) =
      some true :=
  c8_subnet_contains_self (.v4 0xC0A80101) 24 (by decide) (by decide)

/-- C10: `Subnet::mask` (and hence `Subnet::new` and `Subnet::contains`) is
defined exactly when `1 <= prefix <= 32` for IPv4 and `1 <= prefix <= 128`
for IPv6: prefix 0 or a prefix above the address width makes the wrapped
`u8` shift amount reach or exceed the integer's bit width. -/
theorem c10_subnet_mask_total_iff :
    ∀ (addr : IpAddr) (p : Nat), p < 256 →
      (((Subnet.mask addr p).isSome ↔ 1 ≤ p ∧ p ≤ addr.width) ∧
       ((Subnet.new addr p).isSome ↔ 1 ≤ p ∧ p ≤ addr.width) ∧
       (∀ s : Subnet, s.pfx < 256 →
         ((s.contains addr).isSome ↔ 1 ≤ s.pfx ∧ s.pfx ≤ addr.width))) := by
  intro addr p hp
  have hmask : ∀ q : Nat, q < 256 →
      ((Subnet.mask addr q).isSome ↔ 1 ≤ q ∧ q ≤ addr.width) := by
    intro q hq
    cases addr with
    | v4 a =>
      simp only [Subnet.mask, IpAddr.width]
      split <;> rename_i h <;> simp <;> omega
    | v6 a =>
      simp only [Subnet.mask, IpAddr.width]
      split <;> rename_i h <;> simp <;> omega
  refine ⟨hmask p hp, ?_, ?_⟩
  · rw [Subnet.new, Option.isSome_map']
    exact hmask p hp
  · intro s hlt
    rw [Subnet.contains, Option.isSome_map']
    exact hmask s.pfx hlt

/-- Witness for C10: the /24 mask of an IPv4 address is defined, the
prefix-0 mask is not. -/
theorem c10_subnet_mask_total_iff_witness :
    (Subnet.mask (.v4 5) 24).isSome ∧ ¬ (Subnet.mask (.v4 5) 0).isSome := by
  refine ⟨((c10_subnet_mask_total_iff (.v4 5) 24 (by decide)).1).mpr (by decide), ?_⟩
  intro h
  have h2 := ((c10_subnet_mask_total_iff (.v4 5) 0 (by decide)).1).mp h
  exact absurd h2.1 (by decide)

end Netlink

namespace Syscall

/-- The result type of a shim syscall handler:
`sallyport::Result = Result<[Register<usize>; 2], libc::c_int>`. -/
abbrev SysResult := Except Int (Nat × Nat)

/-- `usize -> libc::c_int` via `try_into().or(Err(libc::EINVAL))`: a `usize`
is nonnegative, so the conversion fails exactly above `i32::MAX`. -/
def tryIntoCInt (n : Nat) : Except Int Int :=
  if n < 2 ^ 31 then .ok n else .error EINVAL

/-- `usize -> libc::c_uint` via `try_into().or(Err(libc::EINVAL))`. -/
def tryIntoCUInt (n : Nat) : Except Int Nat :=
  if n < 2 ^ 32 then .ok n else .error EINVAL

/-- `usize as libc::c_int`: truncation to the low 32 bits, reinterpreted as
a signed value (release and debug agree: `as` never fails). -/
def asCInt (n : Nat) : Int :=
  if n % 2 ^ 32 < 2 ^ 31 then (n % 2 ^ 32 : Int) else (n % 2 ^ 32 : Int) - 2 ^ 32

/-- `Register<usize>` reinterpreted as `libc::off_t` (i64) by `into()`. -/
def intoOffT (n : Nat) : Int :=
  if n % 2 ^ 64 < 2 ^ 63 then (n % 2 ^ 64 : Int) else (n % 2 ^ 64 : Int) - 2 ^ 64

/-- The trait methods behind `SyscallHandler::syscall`, abstracted: one field
per handler that the dispatcher can call, taking the already-coerced
arguments (pointers and unsigned values as `Nat`, signed C ints as `Int`).
The trait definition files for the file/network/process handlers are not in
the crate sources available here; the field types follow the coercions
visible in the dispatcher and the Linux prototypes (the third `fcntl`
argument and the `setsockopt` length are modelled as `c_int` and
`socklen_t`). -/
structure SyscallEnv where
  brk : Nat → SysResult
  mmap : Nat → Nat → Int → Int → Int → Int → SysResult
  munmap : Nat → Nat → SysResult
  madvise : Nat → Nat → Int → SysResult
  mprotect : Nat → Nat → Int → SysResult
  arch_prctl : Int → Nat → SysResult
  exit : Int → SysResult
  exit_group : Int → SysResult
  set_tid_address : Nat → SysResult
  rt_sigaction : Int → Nat → Nat → Nat → SysResult
  rt_sigprocmask : Int → Nat → Nat → Nat → SysResult
  sigaltstack : Nat → Nat → SysResult
  getpid : SysResult
  getuid : SysResult
  getgid : SysResult
  geteuid : SysResult
  getegid : SysResult
  getrandom : Nat → Nat → Nat → SysResult
  clock_gettime : Int → Nat → SysResult
  uname : Nat → SysResult
  close : Int → SysResult
  read : Int → Nat → Nat → SysResult
  readv : Int → Nat → Int → SysResult
  write : Int → Nat → Nat → SysResult
  writev : Int → Nat → Int → SysResult
  ioctl : Int → Nat → Nat → SysResult
  readlink : Nat → Nat → Nat → SysResult
  fstat : Int → Nat → SysResult
  fcntl : Int → Int → Int → SysResult
  poll : Nat → Nat → Int → SysResult
  pipe : Nat → SysResult
  epoll_create1 : Int → SysResult
  epoll_ctl : Int → Int → Int → Nat → SysResult
  epoll_wait : Int → Nat → Int → Int → SysResult
  epoll_pwait : Int → Nat → Int → Int → Nat → SysResult
  eventfd2 : Int → Int → SysResult
  dup : Int → SysResult
  dup2 : Int → Int → SysResult
  dup3 : Int → Int → Int → SysResult
  socket : Int → Int → Int → SysResult
  bind : Int → Nat → Nat → SysResult
  listen : Int → Int → SysResult
  getsockname : Int → Nat → Nat → SysResult
  accept : Int → Nat → Nat → SysResult
  accept4 : Int → Nat → Nat → Int → SysResult
  connect : Int → Nat → Nat → SysResult
  recvfrom : Int → Nat → Nat → Int → Nat → Nat → SysResult
  sendto : Int → Nat → Nat → Int → Nat → Nat → SysResult
  setsockopt : Int → Int → Int → Nat → Nat → SysResult
  get_attestation : Nat → Nat → Nat → Nat → SysResult

/-- The argument staging of each dispatch arm that coerces arguments, named
so the dispatcher below stays small.  Each is exactly the corresponding
`match` arm expression of `SyscallHandler::syscall`. -/
def mmapArm (env : SyscallEnv) (a b c d e f : Nat) : SysResult := do
  env.mmap a b (← tryIntoCInt c) (← tryIntoCInt d) (← tryIntoCInt e) (intoOffT f)

def madviseArm (env : SyscallEnv) (a b c : Nat) : SysResult := do
  env.madvise a b (← tryIntoCInt c)

def mprotectArm (env : SyscallEnv) (a b c : Nat) : SysResult := do
  env.mprotect a b (← tryIntoCInt c)

def archPrctlArm (env : SyscallEnv) (a b : Nat) : SysResult := do
  env.arch_prctl (← tryIntoCInt a) b

def exitArm (env : SyscallEnv) (a : Nat) : SysResult := do
  env.exit (← tryIntoCInt a)

def exitGroupArm (env : SyscallEnv) (a : Nat) : SysResult := do
  env.exit_group (← tryIntoCInt a)

def rtSigactionArm (env : SyscallEnv) (a b c d : Nat) : SysResult := do
  env.rt_sigaction (← tryIntoCInt a) b c d

def rtSigprocmaskArm (env : SyscallEnv) (a b c d : Nat) : SysResult := do
  env.rt_sigprocmask (← tryIntoCInt a) b c d

def getrandomArm (env : SyscallEnv) (a b c : Nat) : SysResult := do
  env.getrandom a b (← tryIntoCUInt c)

def clockGettimeArm (env : SyscallEnv) (a b : Nat) : SysResult := do
  env.clock_gettime (← tryIntoCInt a) b

def closeArm (env : SyscallEnv) (a : Nat) : SysResult := do
  env.close (← tryIntoCInt a)

def readArm (env : SyscallEnv) (a b c : Nat) : SysResult := do
  env.read (← tryIntoCInt a) b c

def readvArm (env : SyscallEnv) (a b c : Nat) : SysResult := do
  env.readv (← tryIntoCInt a) b (← tryIntoCInt c)

def writeArm (env : SyscallEnv) (a b c : Nat) : SysResult := do
  env.write (← tryIntoCInt a) b c

def writevArm (env : SyscallEnv) (a b c : Nat) : SysResult := do
  env.writev (← tryIntoCInt a) b (← tryIntoCInt c)

def ioctlArm (env : SyscallEnv) (a b c : Nat) : SysResult := do
  env.ioctl (← tryIntoCInt a) b c

def fstatArm (env : SyscallEnv) (a b : Nat) : SysResult := do
  env.fstat (← tryIntoCInt a) b

def fcntlArm (env : SyscallEnv) (a b c : Nat) : SysResult := do
  env.fcntl (← tryIntoCInt a) (← tryIntoCInt b) (← tryIntoCInt c)

def pollArm (env : SyscallEnv) (a b c : Nat) : SysResult := do
  env.poll a b (← tryIntoCInt c)

def epollCreate1Arm (env : SyscallEnv) (a : Nat) : SysResult := do
  env.epoll_create1 (← tryIntoCInt a)

def epollCtlArm (env : SyscallEnv) (a b c d : Nat) : SysResult := do
  env.epoll_ctl (← tryIntoCInt a) (← tryIntoCInt b) (← tryIntoCInt c) d

def epollWaitArm (env : SyscallEnv) (a b c d : Nat) : SysResult := do
  env.epoll_wait (← tryIntoCInt a) b (← tryIntoCInt c) (← tryIntoCInt d)

def epollPwaitArm (env : SyscallEnv) (a b c d e : Nat) : SysResult := do
  env.epoll_pwait (← tryIntoCInt a) b (← tryIntoCInt c) (← tryIntoCInt d) e

def socketArm (env : SyscallEnv) (a b c : Nat) : SysResult := do
  env.socket (← tryIntoCInt a) (← tryIntoCInt b) (← tryIntoCInt c)

def bindArm (env : SyscallEnv) (a b c : Nat) : SysResult := do
  env.bind (← tryIntoCInt a) b c

def listenArm (env : SyscallEnv) (a b : Nat) : SysResult := do
  env.listen (← tryIntoCInt a) (← tryIntoCInt b)

def getsocknameArm (env : SyscallEnv) (a b c : Nat) : SysResult := do
  env.getsockname (← tryIntoCInt a) b c

def acceptArm (env : SyscallEnv) (a b c : Nat) : SysResult := do
  env.accept (← tryIntoCInt a) b c

def accept4Arm (env : SyscallEnv) (a b c d : Nat) : SysResult := do
  env.accept4 (← tryIntoCInt a) b c (← tryIntoCInt d)

def connectArm (env : SyscallEnv) (a b c : Nat) : SysResult := do
  env.connect (← tryIntoCInt a) b c

def recvfromArm (env : SyscallEnv) (a b c d e f : Nat) : SysResult := do
  env.recvfrom (← tryIntoCInt a) b c (← tryIntoCInt d) e f

def sendtoArm (env : SyscallEnv) (a b c d e f : Nat) : SysResult := do
  env.sendto (← tryIntoCInt a) b c (← tryIntoCInt d) e f

def setsockoptArm (env : SyscallEnv) (a b c d e : Nat) : SysResult := do
  env.setsockopt (← tryIntoCInt a) (← tryIntoCInt b) (← tryIntoCInt c) d (← tryIntoCUInt e)

/-- The `match nr as i64` dispatch of `SyscallHandler::syscall`, before the
`rdx`-restoring fixup.  The second component records whether the default arm
ran `unknown_syscall` (the diagnostics for an unsupported number).  Syscall
numbers are the x86-64 Linux ones from the `libc` crate, plus
`SYS_ENARX_GETATT = 0xEA01` (the enarx number table is included from a
crate-shared file missing here; the value is the one the specification
publishes).  Matching the `Nat` argument against these literals agrees with
the Rust `nr as i64` match for every `nr < 2^64`, since all the constants
are below `2^63`. -/
def dispatch (env : SyscallEnv) (a b c d e f : Nat) (nr : Nat) : SysResult × Bool :=
  if nr = 12 then (env.brk a, false)                          -- SYS_brk
  else if nr = 9 then (mmapArm env a b c d e f, false)        -- SYS_mmap
  else if nr = 11 then (env.munmap a b, false)                -- SYS_munmap
  else if nr = 28 then (madviseArm env a b c, false)          -- SYS_madvise
  else if nr = 10 then (mprotectArm env a b c, false)         -- SYS_mprotect
  else if nr = 158 then (archPrctlArm env a b, false)         -- SYS_arch_prctl
  else if nr = 60 then (exitArm env a, false)                 -- SYS_exit
  else if nr = 231 then (exitGroupArm env a, false)           -- SYS_exit_group
  else if nr = 218 then (env.set_tid_address a, false)        -- SYS_set_tid_address
  else if nr = 13 then (rtSigactionArm env a b c d, false)    -- SYS_rt_sigaction
  else if nr = 14 then (rtSigprocmaskArm env a b c d, false)  -- SYS_rt_sigprocmask
  else if nr = 131 then (env.sigaltstack a b, false)          -- SYS_sigaltstack
  else if nr = 39 then (env.getpid, false)                    -- SYS_getpid
  else if nr = 102 then (env.getuid, false)                   -- SYS_getuid
  else if nr = 104 then (env.getgid, false)                   -- SYS_getgid
  else if nr = 107 then (env.geteuid, false)                  -- SYS_geteuid
  else if nr = 108 then (env.getegid, false)                  -- SYS_getegid
  else if nr = 318 then (getrandomArm env a b c, false)       -- SYS_getrandom
  else if nr = 228 then (clockGettimeArm env a b, false)      -- SYS_clock_gettime
  else if nr = 63 then (env.uname a, false)                   -- SYS_uname
  else if nr = 3 then (closeArm env a, false)                 -- SYS_close
  else if nr = 0 then (readArm env a b c, false)              -- SYS_read
  else if nr = 19 then (readvArm env a b c, false)            -- SYS_readv
  else if nr = 1 then (writeArm env a b c, false)             -- SYS_write
  else if nr = 20 then (writevArm env a b c, false)           -- SYS_writev
  else if nr = 16 then (ioctlArm env a b c, false)            -- SYS_ioctl
  else if nr = 89 then (env.readlink a b c, false)            -- SYS_readlink
  else if nr = 5 then (fstatArm env a b, false)               -- SYS_fstat
  else if nr = 72 then (fcntlArm env a b c, false)            -- SYS_fcntl
  else if nr = 7 then (pollArm env a b c, false)              -- SYS_poll
  else if nr = 22 then (env.pipe a, false)                    -- SYS_pipe
  else if nr = 291 then (epollCreate1Arm env a, false)        -- SYS_epoll_create1
  else if nr = 233 then (epollCtlArm env a b c d, false)      -- SYS_epoll_ctl
  else if nr = 232 then (epollWaitArm env a b c d, false)     -- SYS_epoll_wait
  else if nr = 281 then (epollPwaitArm env a b c d e, false)  -- SYS_epoll_pwait
  else if nr = 290 then (env.eventfd2 (asCInt a) (asCInt b), false) -- SYS_eventfd2 (as-casts)
  else if nr = 32 then (env.dup (asCInt a), false)            -- SYS_dup (as-cast)
  else if nr = 33 then (env.dup2 (asCInt a) (asCInt b), false) -- SYS_dup2 (as-casts)
  else if nr = 292 then (env.dup3 (asCInt a) (asCInt b) (asCInt c), false) -- SYS_dup3 (as-casts)
  else if nr = 41 then (socketArm env a b c, false)           -- SYS_socket
  else if nr = 49 then (bindArm env a b c, false)             -- SYS_bind
  else if nr = 50 then (listenArm env a b, false)             -- SYS_listen
  else if nr = 51 then (getsocknameArm env a b c, false)      -- SYS_getsockname
  else if nr = 43 then (acceptArm env a b c, false)           -- SYS_accept
  else if nr = 288 then (accept4Arm env a b c d, false)       -- SYS_accept4
  else if nr = 42 then (connectArm env a b c, false)          -- SYS_connect
  else if nr = 45 then (recvfromArm env a b c d e f, false)   -- SYS_recvfrom
  else if nr = 44 then (sendtoArm env a b c d e f, false)     -- SYS_sendto
  else if nr = 54 then (setsockoptArm env a b c d e, false)   -- SYS_setsockopt
  else if nr = 0xEA01 then (env.get_attestation a b c d, false) -- SYS_ENARX_GETATT
  else (.error ENOSYS, true)                                  -- unknown_syscall + ENOSYS

/-- Whether a syscall number has a dispatch arm (mirrors the dispatch). -/
def isHandled (nr : Nat) : Bool :=
  decide (nr ∈ ([12, 9, 11, 28, 10, 158, 60, 231, 218, 13, 14, 131, 39, 102,
    104, 107, 108, 318, 228, 63, 3, 0, 19, 1, 20, 16, 89, 5,
    72, 7, 22, 291, 233, 232, 281, 290, 32, 33, 292, 41, 49,
    50, 51, 43, 288, 42, 45, 44, 54, 0xEA01] : List Nat))

/-- `SyscallHandler::syscall`: dispatch, then restore the caller's `rdx`
for Linux (non-enarx) syscall numbers: `ret = ret.map(|ret| [ret[0], c])`
when `nr < 0xEA00`. -/
def syscall (env : SyscallEnv) (a b c d e f : Nat) (nr : Nat) : SysResult × Bool :=
  let r := dispatch env a b c d e f nr
  (if nr < 0xEA00 then r.1.map (fun ret => (ret.1, c)) else r.1, r.2)

/-- A concrete handler environment in which every handler succeeds with
`[0, 0]`: used to evaluate the dispatcher on concrete inputs. -/
def env0 : SyscallEnv where
  brk _ := .ok (0, 0)
  mmap _ _ _ _ _ _ := .ok (0, 0)
  munmap _ _ := .ok (0, 0)
  madvise _ _ _ := .ok (0, 0)
  mprotect _ _ _ := .ok (0, 0)
  arch_prctl _ _ := .ok (0, 0)
  exit _ := .ok (0, 0)
  exit_group _ := .ok (0, 0)
  set_tid_address _ := .ok (0, 0)
  rt_sigaction _ _ _ _ := .ok (0, 0)
  rt_sigprocmask _ _ _ _ := .ok (0, 0)
  sigaltstack _ _ := .ok (0, 0)
  getpid := .ok (0, 0)
  getuid := .ok (0, 0)
  getgid := .ok (0, 0)
  geteuid := .ok (0, 0)
  getegid := .ok (0, 0)
  getrandom _ _ _ := .ok (0, 0)
  clock_gettime _ _ := .ok (0, 0)
  uname _ := .ok (0, 0)
  close _ := .ok (0, 0)
  read _ _ _ := .ok (0, 0)
  readv _ _ _ := .ok (0, 0)
  write _ _ _ := .ok (0, 0)
  writev _ _ _ := .ok (0, 0)
  ioctl _ _ _ := .ok (0, 0)
  readlink _ _ _ := .ok (0, 0)
  fstat _ _ := .ok (0, 0)
  fcntl _ _ _ := .ok (0, 0)
  poll _ _ _ := .ok (0, 0)
  pipe _ := .ok (0, 0)
  epoll_create1 _ := .ok (0, 0)
  epoll_ctl _ _ _ _ := .ok (0, 0)
  epoll_wait _ _ _ _ := .ok (0, 0)
  epoll_pwait _ _ _ _ _ := .ok (0, 0)
  eventfd2 _ _ := .ok (0, 0)
  dup _ := .ok (0, 0)
  dup2 _ _ := .ok (0, 0)
  dup3 _ _ _ := .ok (0, 0)
  socket _ _ _ := .ok (0, 0)
  bind _ _ _ := .ok (0, 0)
  listen _ _ := .ok (0, 0)
  getsockname _ _ _ := .ok (0, 0)
  accept _ _ _ := .ok (0, 0)
  accept4 _ _ _ _ := .ok (0, 0)
  connect _ _ _ := .ok (0, 0)
  recvfrom _ _ _ _ _ _ := .ok (0, 0)
  sendto _ _ _ _ _ _ := .ok (0, 0)
  setsockopt _ _ _ _ _ := .ok (0, 0)
  get_attestation _ _ _ _ := .ok (0, 0)

/-- C1: every syscall dispatched through `SyscallHandler::syscall` with a
number below `0xEA00` that returns successfully has `ret[1]` equal to the
third argument `c` (the caller's `rdx`), regardless of which handler
serviced the call. -/
theorem c1_syscall_preserves_rdx :
    ∀ (env : SyscallEnv) (a b c d e f nr : Nat) (r : Nat × Nat),
      nr < 0xEA00 →
      (syscall env a b c d e f nr).1 = .ok r →
      r.2 = c := by
  intro env a b c d e f nr r hn h
  simp only [syscall, if_pos hn] at h
  cases hd : (dispatch env a b c d e f nr).1 with
  | error err => rw [hd] at h; simp [Except.map] at h
  | ok v =>
    rw [hd] at h
    simp only [Except.map, Except.ok.injEq] at h
    rw [← h]

/-- Witness for C1: a `write(4, 5, 7)` through the all-succeeding
environment returns with `ret[1] = 7`. -/
theorem c1_syscall_preserves_rdx_witness : (((0 : Nat), (7 : Nat))).2 = 7 :=
  c1_syscall_preserves_rdx env0 4 5 7 0 0 0 1 (0, 7) (by decide) (by rfl)

/-- The dispatch arms whose first argument is coerced with
`try_into::<c_int>()`. -/
def armsTryA : List Nat := [0, 1, 3, 5, 13, 14, 16, 19, 20, 41, 42, 43, 44, 45, 49, 50, 51, 54, 60, 72, 158, 228, 231, 232, 233, 281, 288, 291]

/-- The dispatch arms whose second argument is coerced with
`try_into::<c_int>()`. -/
def armsTryB : List Nat := [41, 50, 54, 72, 233]

/-- The dispatch arms whose third argument is coerced with
`try_into::<c_int>()`. -/
def armsTryC : List Nat := [7, 9, 10, 19, 20, 28, 41, 54, 72, 232, 233, 281]

/-- The dispatch arms whose fourth argument is coerced with
`try_into::<c_int>()`. -/
def armsTryD : List Nat := [9, 44, 45, 232, 281, 288]

/-- Counterexample for C7: `eventfd2` (nr 290) converts its arguments with
plain `as` casts, so an initval of `2^32` is silently truncated to `0` and
the syscall proceeds to the handler instead of failing with `EINVAL`. -/
theorem c7_counterexample :
    (syscall env0 (2 ^ 32) 0 0 0 0 0 290).1 = .ok (0, 0) ∧
    (syscall env0 (2 ^ 32) 0 0 0 0 0 290).1 ≠ .error EINVAL := by
  constructor
  · rfl
  · intro hc
    rw [show (syscall env0 (2 ^ 32) 0 0 0 0 0 290).1 = .ok (0, 0) from rfl] at hc
    exact Except.noConfusion hc

lemma syscall_einval_a (env : SyscallEnv) (a b c d e f nr : Nat)
    (hmem : nr ∈ armsTryA) (h : 2 ^ 31 ≤ a) :
    (syscall env a b c d e f nr).1 = .error EINVAL := by
  unfold armsTryA at hmem
  simp only [List.mem_cons, List.not_mem_nil, or_false] at hmem
  rcases hmem with rfl|rfl|rfl|rfl|rfl|rfl|rfl|rfl|rfl|rfl|rfl|rfl|rfl|rfl|rfl|rfl|rfl|rfl|rfl|rfl|rfl|rfl|rfl|rfl|rfl|rfl|rfl|rfl
  all_goals
    simp only [syscall, dispatch, Nat.reduceEqDiff, reduceIte, if_true, if_false]
  all_goals
    simp only [mmapArm, madviseArm, mprotectArm, archPrctlArm, exitArm, exitGroupArm,
    rtSigactionArm, rtSigprocmaskArm, getrandomArm, clockGettimeArm, closeArm,
    readArm, readvArm, writeArm, writevArm, ioctlArm, fstatArm, fcntlArm,
    pollArm, epollCreate1Arm, epollCtlArm, epollWaitArm, epollPwaitArm,
    socketArm, bindArm, listenArm, getsocknameArm, acceptArm, accept4Arm,
    connectArm, recvfromArm, sendtoArm, setsockoptArm, Except.bind, bind, tryIntoCInt, tryIntoCUInt]
  all_goals split_ifs <;> simp_all [Except.map] <;> omega

lemma syscall_einval_b (env : SyscallEnv) (a b c d e f nr : Nat)
    (hmem : nr ∈ armsTryB) (h : 2 ^ 31 ≤ b) :
    (syscall env a b c d e f nr).1 = .error EINVAL := by
  unfold armsTryB at hmem
  simp only [List.mem_cons, List.not_mem_nil, or_false] at hmem
  rcases hmem with rfl|rfl|rfl|rfl|rfl
  all_goals
    simp only [syscall, dispatch, Nat.reduceEqDiff, reduceIte, if_true, if_false]
  all_goals
    simp only [mmapArm, madviseArm, mprotectArm, archPrctlArm, exitArm, exitGroupArm,
    rtSigactionArm, rtSigprocmaskArm, getrandomArm, clockGettimeArm, closeArm,
    readArm, readvArm, writeArm, writevArm, ioctlArm, fstatArm, fcntlArm,
    pollArm, epollCreate1Arm, epollCtlArm, epollWaitArm, epollPwaitArm,
    socketArm, bindArm, listenArm, getsocknameArm, acceptArm, accept4Arm,
    connectArm, recvfromArm, sendtoArm, setsockoptArm, Except.bind, bind, tryIntoCInt, tryIntoCUInt]
  all_goals split_ifs <;> simp_all [Except.map] <;> omega

lemma syscall_einval_c (env : SyscallEnv) (a b c d e f nr : Nat)
    (hmem : nr ∈ armsTryC) (h : 2 ^ 31 ≤ c) :
    (syscall env a b c d e f nr).1 = .error EINVAL := by
  unfold armsTryC at hmem
  simp only [List.mem_cons, List.not_mem_nil, or_false] at hmem
  rcases hmem with rfl|rfl|rfl|rfl|rfl|rfl|rfl|rfl|rfl|rfl|rfl|rfl
  all_goals
    simp only [syscall, dispatch, Nat.reduceEqDiff, reduceIte, if_true, if_false]
  all_goals
    simp only [mmapArm, madviseArm, mprotectArm, archPrctlArm, exitArm, exitGroupArm,
    rtSigactionArm, rtSigprocmaskArm, getrandomArm, clockGettimeArm, closeArm,
    readArm, readvArm, writeArm, writevArm, ioctlArm, fstatArm, fcntlArm,
    pollArm, epollCreate1Arm, epollCtlArm, epollWaitArm, epollPwaitArm,
    socketArm, bindArm, listenArm, getsocknameArm, acceptArm, accept4Arm,
    connectArm, recvfromArm, sendtoArm, setsockoptArm, Except.bind, bind, tryIntoCInt, tryIntoCUInt]
  all_goals split_ifs <;> simp_all [Except.map] <;> omega

lemma syscall_einval_d (env : SyscallEnv) (a b c d e f nr : Nat)
    (hmem : nr ∈ armsTryD) (h : 2 ^ 31 ≤ d) :
    (syscall env a b c d e f nr).1 = .error EINVAL := by
  unfold armsTryD at hmem
  simp only [List.mem_cons, List.not_mem_nil, or_false] at hmem
  rcases hmem with rfl|rfl|rfl|rfl|rfl|rfl
  all_goals
    simp only [syscall, dispatch, Nat.reduceEqDiff, reduceIte, if_true, if_false]
  all_goals
    simp only [mmapArm, madviseArm, mprotectArm, archPrctlArm, exitArm, exitGroupArm,
    rtSigactionArm, rtSigprocmaskArm, getrandomArm, clockGettimeArm, closeArm,
    readArm, readvArm, writeArm, writevArm, ioctlArm, fstatArm, fcntlArm,
    pollArm, epollCreate1Arm, epollCtlArm, epollWaitArm, epollPwaitArm,
    socketArm, bindArm, listenArm, getsocknameArm, acceptArm, accept4Arm,
    connectArm, recvfromArm, sendtoArm, setsockoptArm, Except.bind, bind, tryIntoCInt, tryIntoCUInt]
  all_goals split_ifs <;> simp_all [Except.map] <;> omega

lemma syscall_einval_mmap_e (env : SyscallEnv) (a b c d e f : Nat)
    (h : 2 ^ 31 ≤ e) : (syscall env a b c d e f 9).1 = .error EINVAL := by
  simp only [syscall, dispatch, Nat.reduceEqDiff, reduceIte, if_true, if_false]
  simp only [mmapArm, Except.bind, bind, tryIntoCInt]
  split_ifs <;> simp_all [Except.map] <;> omega

lemma syscall_einval_getrandom (env : SyscallEnv) (a b c d e f : Nat)
    (h : 2 ^ 32 ≤ c) : (syscall env a b c d e f 318).1 = .error EINVAL := by
  simp only [syscall, dispatch, Nat.reduceEqDiff, reduceIte, if_true, if_false]
  simp only [getrandomArm, Except.bind, bind, tryIntoCUInt]
  split_ifs <;> simp_all [Except.map] <;> omega

lemma syscall_einval_setsockopt_e (env : SyscallEnv) (a b c d e f : Nat)
    (h : 2 ^ 32 ≤ e) : (syscall env a b c d e f 54).1 = .error EINVAL := by
  simp only [syscall, dispatch, Nat.reduceEqDiff, reduceIte, if_true, if_false]
  simp only [setsockoptArm, Except.bind, bind, tryIntoCInt, tryIntoCUInt]
  split_ifs <;> simp_all [Except.map] <;> omega

lemma syscall_as_cast_arms (env : SyscallEnv) (a b c d e f : Nat) :
    (syscall env a b c d e f 290).1 =
      (env.eventfd2 (asCInt a) (asCInt b)).map (fun r => (r.1, c)) ∧
    (syscall env a b c d e f 32).1 = (env.dup (asCInt a)).map (fun r => (r.1, c)) ∧
    (syscall env a b c d e f 33).1 =
      (env.dup2 (asCInt a) (asCInt b)).map (fun r => (r.1, c)) ∧
    (syscall env a b c d e f 292).1 =
      (env.dup3 (asCInt a) (asCInt b) (asCInt c)).map (fun r => (r.1, c)) := by
  refine ⟨?_, ?_, ?_, ?_⟩ <;>
  · simp only [syscall, dispatch, Nat.reduceEqDiff, reduceIte, if_true, if_false]
    rfl

lemma syscall_enosys (env : SyscallEnv) (a b c d e f nr : Nat)
    (h : isHandled nr = false) :
    (syscall env a b c d e f nr).1 = .error ENOSYS ∧
    (syscall env a b c d e f nr).2 = true := by
  have hne : ∀ m : Nat, isHandled m = true → nr ≠ m := by
    intro m hm he
    rw [he, hm] at h
    exact Bool.noConfusion h
  have hd : dispatch env a b c d e f nr = (.error ENOSYS, true) := by
    unfold dispatch
    rw [if_neg (hne 12 (by decide)),
      if_neg (hne 9 (by decide)), if_neg (hne 11 (by decide)), if_neg (hne 28 (by decide)),
      if_neg (hne 10 (by decide)), if_neg (hne 158 (by decide)), if_neg (hne 60 (by decide)),
      if_neg (hne 231 (by decide)), if_neg (hne 218 (by decide)), if_neg (hne 13 (by decide)),
      if_neg (hne 14 (by decide)), if_neg (hne 131 (by decide)), if_neg (hne 39 (by decide)),
      if_neg (hne 102 (by decide)), if_neg (hne 104 (by decide)), if_neg (hne 107 (by decide)),
      if_neg (hne 108 (by decide)), if_neg (hne 318 (by decide)), if_neg (hne 228 (by decide)),
      if_neg (hne 63 (by decide)), if_neg (hne 3 (by decide)), if_neg (hne 0 (by decide)),
      if_neg (hne 19 (by decide)), if_neg (hne 1 (by decide)), if_neg (hne 20 (by decide)),
      if_neg (hne 16 (by decide)), if_neg (hne 89 (by decide)), if_neg (hne 5 (by decide)),
      if_neg (hne 72 (by decide)), if_neg (hne 7 (by decide)), if_neg (hne 22 (by decide)),
      if_neg (hne 291 (by decide)), if_neg (hne 233 (by decide)), if_neg (hne 232 (by decide)),
      if_neg (hne 281 (by decide)), if_neg (hne 290 (by decide)), if_neg (hne 32 (by decide)),
      if_neg (hne 33 (by decide)), if_neg (hne 292 (by decide)), if_neg (hne 41 (by decide)),
      if_neg (hne 49 (by decide)), if_neg (hne 50 (by decide)), if_neg (hne 51 (by decide)),
      if_neg (hne 43 (by decide)), if_neg (hne 288 (by decide)), if_neg (hne 42 (by decide)),
      if_neg (hne 45 (by decide)), if_neg (hne 44 (by decide)), if_neg (hne 54 (by decide)),
      if_neg (hne 59905 (by decide))]
  rw [syscall, hd]
  exact ⟨by split <;> rfl, rfl⟩

/-- C7 (amended): in `SyscallHandler::syscall` every argument converted with
`try_into` fails the whole syscall with `EINVAL` when it does not fit the
narrower type (grouped below by argument position), and every number without
a handler arm records diagnostics via `unknown_syscall` and returns
`ENOSYS`; but `eventfd2`, `dup`, `dup2` and `dup3` are dispatched with plain
`as` casts, which truncate out-of-range arguments instead of failing. -/
theorem c7_coercion_behaviour :
    (∀ (env : SyscallEnv) (a b c d e f nr : Nat), nr ∈ armsTryA →
        2 ^ 31 ≤ a → (syscall env a b c d e f nr).1 = .error EINVAL) ∧
    (∀ (env : SyscallEnv) (a b c d e f nr : Nat), nr ∈ armsTryB →
        2 ^ 31 ≤ b → (syscall env a b c d e f nr).1 = .error EINVAL) ∧
    (∀ (env : SyscallEnv) (a b c d e f nr : Nat), nr ∈ armsTryC →
        2 ^ 31 ≤ c → (syscall env a b c d e f nr).1 = .error EINVAL) ∧
    (∀ (env : SyscallEnv) (a b c d e f nr : Nat), nr ∈ armsTryD →
        2 ^ 31 ≤ d → (syscall env a b c d e f nr).1 = .error EINVAL) ∧
    (∀ (env : SyscallEnv) (a b c d e f : Nat),
        2 ^ 31 ≤ e → (syscall env a b c d e f 9).1 = .error EINVAL) ∧
    (∀ (env : SyscallEnv) (a b c d e f : Nat),
        2 ^ 32 ≤ c → (syscall env a b c d e f 318).1 = .error EINVAL) ∧
    (∀ (env : SyscallEnv) (a b c d e f : Nat),
        2 ^ 32 ≤ e → (syscall env a b c d e f 54).1 = .error EINVAL) ∧
    (∀ (env : SyscallEnv) (a b c d e f : Nat),
        (syscall env a b c d e f 290).1 =
          (env.eventfd2 (asCInt a) (asCInt b)).map (fun r => (r.1, c)) ∧
        (syscall env a b c d e f 32).1 =
          (env.dup (asCInt a)).map (fun r => (r.1, c)) ∧
        (syscall env a b c d e f 33).1 =
          (env.dup2 (asCInt a) (asCInt b)).map (fun r => (r.1, c)) ∧
        (syscall env a b c d e f 292).1 =
          (env.dup3 (asCInt a) (asCInt b) (asCInt c)).map (fun r => (r.1, c))) ∧
    (∀ (env : SyscallEnv) (a b c d e f nr : Nat), isHandled nr = false →
        (syscall env a b c d e f nr).1 = .error ENOSYS ∧
        (syscall env a b c d e f nr).2 = true) := by
  exact ⟨syscall_einval_a, syscall_einval_b, syscall_einval_c, syscall_einval_d,
    syscall_einval_mmap_e, syscall_einval_getrandom, syscall_einval_setsockopt_e,
    syscall_as_cast_arms, syscall_enosys⟩

/-- Witness for C7 (amended): a `close` with an fd above `i32::MAX` fails
with `EINVAL`; syscall number 2 (`open`, unhandled) returns `ENOSYS` with
diagnostics recorded. -/
theorem c7_coercion_behaviour_witness :
    (syscall env0 (2 ^ 31) 0 0 0 0 0 3).1 = .error EINVAL ∧
    (syscall env0 0 0 0 0 0 0 2).1 = .error ENOSYS ∧
    (syscall env0 0 0 0 0 0 0 2).2 = true := by
  refine ⟨c7_coercion_behaviour.1 env0 (2 ^ 31) 0 0 0 0 0 3 (by decide) (by norm_num), ?_, ?_⟩
  · exact (c7_coercion_behaviour.2.2.2.2.2.2.2.2 env0 0 0 0 0 0 0 2 (by decide)).1
  · exact (c7_coercion_behaviour.2.2.2.2.2.2.2.2 env0 0 0 0 0 0 0 2 (by decide)).2

end Syscall

namespace Sgx

/-- Modelled from the spec: the SSA exception vector recorded at AEX time
(the `ssa.rs` definition is not among the available sources; the spec names
`InvalidOpcode` and `#GP`).  A representative set of x86 exception vectors. -/
inductive Vector where
  | DivideByZero
  | Debug
  | Breakpoint
  | InvalidOpcode
  | GeneralProtection
  | PageFault
deriving Repr, DecidableEq

end Sgx

namespace SgxHandler

open Sgx

/-- The part of the SGX `StateSaveArea` that `Handler::finish` reads and
writes: the decoded exception of `gpr.exitinfo.exception()` and `gpr.rip`.
(The full SSA layout is not among the available sources; only these two
observables are used.) -/
structure StateSaveArea where
  exception : Option Vector
  rip : Nat
deriving Repr, DecidableEq

/-- Opcode bytes of `syscall`. -/
def OP_SYSCALL : List Nat := [0x0f, 0x05]

/-- Opcode bytes of `cpuid`. -/
def OP_CPUID : List Nat := [0x0f, 0xa2]

/-- How `Handler::finish` returns: either it falls off the end with the SSA
updated (the payload is then resumed via ERESUME), or it executes `ud2`. -/
inductive FinishResult where
  | resumed (ssa : StateSaveArea)
  | ud2
deriving Repr, DecidableEq

/-- `Handler::finish`: if the SSA records an `InvalidOpcode` exception and
the two bytes at `rip` (read through `memory`) are `syscall` or `cpuid`,
skip the instruction (`rip + 2`, wrapping `usize` addition) and return;
otherwise execute `ud2`. -/
def finish (memory : Nat → Nat) (ssa : StateSaveArea) : FinishResult :=
  match ssa.exception with
  | some Vector.InvalidOpcode =>
    let opcode := [memory ssa.rip, memory ((ssa.rip + 1) % USIZE)]
    if opcode = OP_SYSCALL ∨ opcode = OP_CPUID then
      .resumed { ssa with rip := (ssa.rip + 2) % USIZE }
    else
      .ud2
  | _ => .ud2

/-- C4: when the SGX shim finishes handling an exception, an `InvalidOpcode`
whose two opcode bytes at `rip` are `0F 05` (`syscall`) or `0F A2` (`cpuid`)
advances `rip` by exactly 2 and resumes the payload; any other exception, or
any other opcode, terminates with `ud2`. -/
theorem c4_finish_behaviour :
    ∀ (memory : Nat → Nat) (ssa : StateSaveArea),
      (ssa.exception = some .InvalidOpcode →
        ([memory ssa.rip, memory ((ssa.rip + 1) % USIZE)] = OP_SYSCALL ∨
         [memory ssa.rip, memory ((ssa.rip + 1) % USIZE)] = OP_CPUID) →
        finish memory ssa = .resumed { ssa with rip := (ssa.rip + 2) % USIZE } ∧
        (ssa.rip + 2 < USIZE →
          finish memory ssa = .resumed { ssa with rip := ssa.rip + 2 })) ∧
      (ssa.exception ≠ some .InvalidOpcode → finish memory ssa = .ud2) ∧
      (¬([memory ssa.rip, memory ((ssa.rip + 1) % USIZE)] = OP_SYSCALL ∨
         [memory ssa.rip, memory ((ssa.rip + 1) % USIZE)] = OP_CPUID) →
        finish memory ssa = .ud2) := by
  intro memory ssa
  refine ⟨?_, ?_, ?_⟩
  · intro hexc hop
    have hres : finish memory ssa = .resumed { ssa with rip := (ssa.rip + 2) % USIZE } := by
      rw [finish, hexc]
      simp only [if_pos hop]
    exact ⟨hres, fun hlt => by rw [hres, Nat.mod_eq_of_lt hlt]⟩
  · intro hexc
    rw [finish]
    cases hssa : ssa.exception with
    | none => rfl
    | some v => cases v <;> simp_all
  · intro hop
    rw [finish]
    cases hssa : ssa.exception with
    | none => rfl
    | some v => cases v <;> simp_all

/-- A two-byte `syscall` instruction mapped at `0x40_0000`. -/
def memSyscallAt400000 : Nat → Nat :=
  fun addr => if addr = 0x400000 then 0x0f else if addr = 0x400001 then 0x05 else 0

/-- Witness for C4: an `InvalidOpcode` AEX on the `syscall` bytes at
`0x40_0000` resumes with `rip = 0x40_0002`; a `#GP` AEX executes `ud2`. -/
theorem c4_finish_behaviour_witness :
    finish memSyscallAt400000 { exception := some .InvalidOpcode, rip := 0x400000 } =
      .resumed { exception := some .InvalidOpcode, rip := 0x400002 } ∧
    finish memSyscallAt400000 { exception := some .GeneralProtection, rip := 0x400000 } =
      .ud2 := by
  constructor
  · exact ((c4_finish_behaviour memSyscallAt400000
      { exception := some .InvalidOpcode, rip := 0x400000 }).1 (by rfl)
      (by left; decide)).2 (by decide)
  · exact (c4_finish_behaviour memSyscallAt400000
      { exception := some .GeneralProtection, rip := 0x400000 }).2.1 (by decide)

end SgxHandler

namespace KvmThread

/-- Modelled from the spec: the enarx syscall numbers
(`SYS_ENARX_BALLOON_MEMORY = 0xEA05`, `SYS_ENARX_MEM_INFO = 0xEA04`) and the
KVM syscall trigger port `0xFF`; the number-table source file is not among
the available sources. -/
def SYS_ENARX_BALLOON_MEMORY : Nat := 0xEA05

def SYS_ENARX_MEM_INFO : Nat := 0xEA04

def KVM_SYSCALL_TRIGGER_PORT : Nat := 0xFF

/-- `Thread::balloon`: `size = 1 << pow2` is the release-profile masked
shift, so `2^(pow2 % 64)`; the `EINVAL` guard checks `size` against the host
page size and the guest-physical alignment.  The anonymous mapping
(`Map::map(size * npgs)`, wrapping `usize` multiplication) and the insertion
into the VM (`keep.map(pages, addr).addr()`) are abstracted as the `alloc`
and `mapVm` functions.  The first result component is the reply
(`Ok([vaddr, 0])` or the errno), the second is the byte count handed to the
allocator (`none` when the guard rejected the request before allocating). -/
def balloon (pgsz : Nat) (alloc : Nat → Except Int Nat)
    (mapVm : Nat → Nat → Except Int Nat) (pow2 npgs addr : Nat) :
    Except Int (Nat × Nat) × Option Nat :=
  let size := 2 ^ (pow2 % 64)
  if size ≠ pgsz ∨ addr % size ≠ 0 then
    (.error EINVAL, none)
  else
    let bytes := size * npgs % USIZE
    (match alloc bytes with
     | .error errno => .error errno
     | .ok pages =>
       match mapVm pages addr with
       | .error errno => .error errno
       | .ok vaddr => .ok (vaddr, 0), some bytes)

/-- An allocator that always succeeds, placing the pages at `0x7000_0000`. -/
def alloc0 : Nat → Except Int Nat := fun _ => .ok 0x70000000

/-- A VM mapper that always succeeds and returns the host virtual base. -/
def mapVm0 : Nat → Nat → Except Int Nat := fun pages _ => .ok pages

/-- Counterexample for C6: with the release-profile masked shift,
`pow2 = 76` yields `size = 2^12 = 4096`; on a 4 KiB-page host the guard
passes even though `2^76` differs from the page size, and the handler
allocates and maps instead of returning `EINVAL`. -/
theorem c6_counterexample :
    balloon 4096 alloc0 mapVm0 76 1 0 = (.ok (0x70000000, 0), some 4096) ∧
    2 ^ 76 ≠ 4096 := by
  constructor
  · rfl
  · decide

/-- C6 (amended): with `size = 2^(pow2 mod 64)` (the release-build masked
shift) and the byte count `size * npgs` taken modulo `2^64`: a request whose
`size` differs from the host page size or whose guest-physical address is
not `size`-aligned fails with `EINVAL` before allocating anything; any other
request hands `size * npgs (mod 2^64)` bytes to the anonymous allocator,
maps them into the VM at the guest-physical address, and returns the
host-virtual base in `ret[0]` (for `pow2 < 64` this is the claim as
written). -/
theorem c6_balloon_behaviour :
    ∀ (pgsz : Nat) (alloc : Nat → Except Int Nat)
      (mapVm : Nat → Nat → Except Int Nat) (pow2 npgs addr : Nat),
      (2 ^ (pow2 % 64) ≠ pgsz ∨ addr % 2 ^ (pow2 % 64) ≠ 0 →
        balloon pgsz alloc mapVm pow2 npgs addr = (.error EINVAL, none)) ∧
      (2 ^ (pow2 % 64) = pgsz → addr % 2 ^ (pow2 % 64) = 0 →
        (balloon pgsz alloc mapVm pow2 npgs addr).2 =
          some (2 ^ (pow2 % 64) * npgs % USIZE) ∧
        ∀ pages vaddr, alloc (2 ^ (pow2 % 64) * npgs % USIZE) = .ok pages →
          mapVm pages addr = .ok vaddr →
          (balloon pgsz alloc mapVm pow2 npgs addr).1 = .ok (vaddr, 0)) := by
  intro pgsz alloc mapVm pow2 npgs addr
  constructor
  · intro h
    rw [balloon, if_pos h]
  · intro h1 h2
    have hguard : ¬(2 ^ (pow2 % 64) ≠ pgsz ∨ addr % 2 ^ (pow2 % 64) ≠ 0) := by
      push_neg
      exact ⟨h1, h2⟩
    rw [balloon, if_neg hguard]
    refine ⟨rfl, ?_⟩
    intro pages vaddr halloc hmap
    simp only [halloc, hmap]

/-- Witness for C6 (amended): scenario S5, `pow2 = 12`, `npgs = 2`,
`gpa = 0x4000_0000` on a 4 KiB-page host: 8 KiB are allocated and the reply
carries the host-virtual base. -/
theorem c6_balloon_behaviour_witness :
    (balloon 4096 alloc0 mapVm0 12 2 0x40000000).2 = some 8192 ∧
    (balloon 4096 alloc0 mapVm0 12 2 0x40000000).1 = .ok (0x70000000, 0) := by
  have h := (c6_balloon_behaviour 4096 alloc0 mapVm0 12 2 0x40000000).2
    (by decide) (by decide)
  exact ⟨h.1, h.2 0x70000000 0x70000000 (by rfl) (by rfl)⟩

/-- The `kvm_ioctls::VcpuExit` values reaching the KVM `Thread::enter`
match: an `IoOut` with its port, or any other exit reason. -/
inductive KvmExit where
  | ioOut (port : Nat)
  | other
deriving Repr, DecidableEq

/-- The observable outcome of one KVM `Thread::enter` call: an internal
request was serviced in place and the reply written
(`Ok(Command::Continue)`), the block is handed to the host executor
(`Ok(Command::SysCall(block))`), or the call returns `Err(anyhow!(reason))`. -/
inductive KvmOutcome where
  | continueRun (rep : Except Int (Nat × Nat))
  | sysCall
  | errExit

/-- KVM `Thread::enter`: an `IoOut` on the syscall trigger port dispatches
on the block's request number (balloon and mem_info are serviced in place,
their reply abstracted as `balloonRes`/`meminfoRes`); any other exit reason
returns `Err`. -/
def enter (balloonRes meminfoRes : Except Int (Nat × Nat))
    (exit : KvmExit) (reqNum : Nat) : KvmOutcome :=
  match exit with
  | .ioOut port =>
    if port = KVM_SYSCALL_TRIGGER_PORT then
      if reqNum = SYS_ENARX_BALLOON_MEMORY then .continueRun balloonRes
      else if reqNum = SYS_ENARX_MEM_INFO then .continueRun meminfoRes
      else .sysCall
    else .errExit
  | .other => .errExit

end KvmThread

namespace SgxThread

open Sgx

/-- Modelled from the spec: the enarx syscall numbers used by the SGX host
loop (`SYS_ENARX_CPUID = 0xEA02`, `SYS_ENARX_GETATT = 0xEA01`,
`SYS_ENARX_ERESUME = 0xEA03`); the number-table source file is not among the
available sources. -/
def SYS_ENARX_CPUID : Nat := 0xEA02

def SYS_ENARX_GETATT : Nat := 0xEA01

def SYS_ENARX_ERESUME : Nat := 0xEA03

/-- `sgx::enclave::Entry`: how the enclave is re-entered. -/
inductive Entry where
  | enter
  | resume
deriving Repr, DecidableEq

/-- What one `self.thread.enter(how, &mut registers)` call reported: an AEX
(`Err(ei)`) carrying the trapping exception, or a normal exit (`Ok(_)`)
with the block's request number. -/
inductive EnterEvent where
  | aex (trap : Vector)
  | ok (reqNum : Nat)
deriving Repr, DecidableEq

/-- The outcome of one iteration of the SGX `Thread::enter` loop: loop again
with the given re-entry mode, return `Ok(Command::SysCall(block))`, return
`Err` (the `?` on `get_attestation`), or `panic!` (the unexpected-AEX arm). -/
inductive StepResult where
  | reenter (how : Entry)
  | sysCall
  | errExit
  | panicked
deriving Repr, DecidableEq

/-- One iteration of the SGX `Thread::enter` loop body.  `gaResult` is the
outcome of the host's `get_attestation` routine.  An AEX with
`InvalidOpcode` re-enters; `SYS_ENARX_CPUID` is serviced with a host `cpuid`
and re-enters; `SYS_ENARX_GETATT` re-enters on success and propagates the
error otherwise; `SYS_ENARX_ERESUME` resumes; any other number returns the
block to the executor; any other AEX panics. -/
def enterStep (gaResult : Except Int Nat) (ev : EnterEvent) : StepResult :=
  match ev with
  | .aex trap => if trap = Vector.InvalidOpcode then .reenter .enter else .panicked
  | .ok num =>
    if num = SYS_ENARX_CPUID then .reenter .enter
    else if num = SYS_ENARX_GETATT then
      match gaResult with
      | .ok _ => .reenter .enter
      | .error _ => .errExit
    else if num = SYS_ENARX_ERESUME then .reenter .resume
    else .sysCall

/-- Counterexample for C5: an SGX AEX whose trap is `#GP` (not
`InvalidOpcode`) makes `Thread::enter` panic (`panic!("Unexpected AEX")`),
it does not yield `Err` with the reason as the claim states. -/
theorem c5_counterexample :
    enterStep (.ok 0) (.aex .GeneralProtection) = .panicked ∧
    enterStep (.ok 0) (.aex .GeneralProtection) ≠ .errExit := by
  constructor
  · rfl
  · decide

/-- C5 (amended): every host-side `Thread::enter` outcome is classified as
the claim states, except that on SGX an AEX with a trap other than
`InvalidOpcode` panics instead of returning `Err`: on KVM, an `IoOut` on the
trigger port with `SYS_ENARX_BALLOON_MEMORY`/`SYS_ENARX_MEM_INFO` is
serviced in place and continues, any other number on that port yields
`Command::SysCall`, and any other exit yields `Err`; on SGX, an
`InvalidOpcode` AEX re-enters, `SYS_ENARX_CPUID`/`SYS_ENARX_GETATT` (on
success) are serviced and re-enter, a `get_attestation` failure propagates
as `Err`, `SYS_ENARX_ERESUME` resumes, any other number yields
`Command::SysCall`, and any other AEX panics. -/
theorem c5_enter_outcomes :
    (∀ (balloonRes meminfoRes : Except Int (Nat × Nat)) (num : Nat),
      KvmThread.enter balloonRes meminfoRes (.ioOut 0xFF) num =
        (if num = 0xEA05 then .continueRun balloonRes
         else if num = 0xEA04 then .continueRun meminfoRes
         else .sysCall) ∧
      (∀ port, port ≠ 0xFF →
        KvmThread.enter balloonRes meminfoRes (.ioOut port) num = .errExit) ∧
      KvmThread.enter balloonRes meminfoRes .other num = .errExit) ∧
    (∀ (ga : Except Int Nat) (trap : Vector) (num : Nat),
      enterStep ga (.aex trap) =
        (if trap = .InvalidOpcode then .reenter .enter else .panicked) ∧
      enterStep ga (.ok num) =
        (if num = 0xEA02 then .reenter .enter
         else if num = 0xEA01 then
           (match ga with
            | .ok _ => .reenter .enter
            | .error _ => .errExit)
         else if num = 0xEA03 then .reenter .resume
         else .sysCall)) := by
  constructor
  · intro balloonRes meminfoRes num
    refine ⟨rfl, ?_, rfl⟩
    intro port hport
    simp [KvmThread.enter, KvmThread.KVM_SYSCALL_TRIGGER_PORT, hport]
  · intro ga trap num
    exact ⟨rfl, rfl⟩

/-- Witness for C5 (amended): an `IoOut` on port `0x3F8` (not the trigger
port) ends the KVM thread with `Err`. -/
theorem c5_enter_outcomes_witness :
    KvmThread.enter (.ok (0, 0)) (.ok (0, 0)) (.ioOut 0x3F8) 1 =
      KvmThread.KvmOutcome.errExit :=
  ((c5_enter_outcomes.1 (.ok (0, 0)) (.ok (0, 0)) 1).2.1) 0x3F8 (by decide)

end SgxThread

end Enarx
